import Mathlib

/-!
Shallow embedding of the canvas-mcp request/translation layer
(`src/canvas_mcp/client.py` and `src/canvas_mcp/server.py`).

Payloads are modelled as insertion-ordered association lists from bracketed
form-field names to scalar values, mirroring the Python dicts built by the
client (all keys assigned in a given operation are distinct, so an ordered
association list has the same lookup semantics as the dict).  Optional
parameters are `Option`-typed; Python truthiness tests on optional strings,
lists and dicts are modelled explicitly.  The transport is modelled as an
oracle mapping each wire request to either a decoded JSON body or a
transport failure carrying the optional response; each client operation
returns the list of wire requests it issues together with its outcome.
-/

/-- Scalar values that can occur in a form payload. -/
inductive Value where
  | str (s : String)
  | int (n : Int)
  | bool (b : Bool)
  | num (q : Rat)
  deriving DecidableEq, Repr

/-- A form payload: ordered association list of bracketed field names. -/
abbrev Payload := List (String × Value)

/-- First-match lookup, matching Python dict indexing (keys are distinct). -/
def Payload.lookup (p : Payload) (k : String) : Option Value :=
  (p.find? (fun kv => kv.1 == k)).map Prod.snd

/-- Key membership, matching Python `in` on the payload dict. -/
def Payload.hasKey (p : Payload) (k : String) : Bool :=
  p.any (fun kv => kv.1 == k)

/-- Decoded JSON values (response bodies). -/
inductive Json where
  | null
  | bool (b : Bool)
  | int (n : Int)
  | num (q : Rat)
  | str (s : String)
  | arr (elems : List Json)
  | obj (fields : List (String × Json))
  deriving BEq, Repr

/-- First-match lookup in a parsed JSON object, matching Python `dict.get`. -/
def jsonLookup (m : List (String × Json)) (k : String) : Option Json :=
  (m.find? (fun kv => kv.1 == k)).map Prod.snd

/-- Entry added under an `is not None` guard (`if x is not None: data[k] = x`). -/
def optEntry (k : String) (v : Option Value) : Payload :=
  match v with
  | some x => [(k, x)]
  | none => []

/-- Entry added under a Python truthiness guard on an optional string
(`if x: data[k] = x`): dropped when the value is `None` or `""`. -/
def truthyEntry (k : String) (v : Option String) : Payload :=
  match v with
  | some s => if s = "" then [] else [(k, Value.str s)]
  | none => []

/-- Python truthiness of an optional string. -/
def pyTruthyStr (v : Option String) : Bool :=
  match v with
  | some s => !(s == "")
  | none => false

/-- Python truthiness of an optional list. -/
def pyTruthyList (v : Option (List String)) : Bool :=
  match v with
  | some l => !l.isEmpty
  | none => false

/-- Python truthiness of an optional dict. -/
def pyTruthyDict (v : Option (List (String × Value))) : Bool :=
  match v with
  | some m => !m.isEmpty
  | none => false

/-- Python `a or b` on an optional string `a` and string `b`. -/
def pyOrStr (a : Option String) (b : String) : String :=
  match a with
  | some s => if s = "" then b else s
  | none => b

/-- Indexed bracketed field name `field[i]` (Python `f"{field}[{i}]"`). -/
def idxKey (field : String) (i : Nat) : String :=
  field ++ "[" ++ toString i ++ "]"

/-- Expansion of a list parameter into indexed bracketed fields
(`for i, v in enumerate(l): data[f"{field}[{i}]"] = v`). -/
def enumIndexed (field : String) (l : List String) : Payload :=
  l.enum.map (fun iv => (idxKey field iv.1, Value.str iv.2))

/-- Whether `pre` is a leading substring of `s` (on the character list). -/
def strHasPre (pre s : String) : Bool :=
  List.isPrefixOf pre.data s.data

/-- Whether `suf` is a trailing slash test helper: does `s` end in `'/'`. -/
def strEndsSlash (s : String) : Bool :=
  List.isPrefixOf ['/'] s.data.reverse

/-- The keys of `p` that start with `pre`, in payload order. -/
def keysWithPre (pre : String) (p : Payload) : List String :=
  (p.filter (fun kv => strHasPre pre kv.1)).map Prod.fst

/-- The module-prerequisite field name used by `create_module`/`update_module`. -/
def prereqField : String := "module[prerequisite_module_ids]"

/-- The explicit-empty-list sentinel key emitted by `update_module`. -/
def prereqSentinelKey : String := "module[prerequisite_module_ids][]"

/-- The keys of a module payload belonging to the prerequisite list field. -/
def prereqKeys (p : Payload) : List String :=
  keysWithPre prereqField p

/-- Python `s.lstrip("/")`. -/
def lstripSlashes (s : String) : String :=
  String.mk (s.data.dropWhile (fun c => c == '/'))

/-- Python `s.rstrip("/")`. -/
def rstripSlashes (s : String) : String :=
  String.mk ((s.data.reverse.dropWhile (fun c => c == '/')).reverse)

/-- The structured error raised by the transport adapter
(`CanvasAPIError(status_code, message)`); the message may be any JSON value
extracted from the remote body. -/
structure CanvasAPIError where
  status_code : Int
  message : Json
  deriving BEq, Repr

/-- The (optional) parsed remote response attached to a transport failure:
status code plus the body parsed as a JSON object, `none` when the body is
absent or not parseable as JSON. -/
structure RespInfo where
  status_code : Int
  body : Option (List (String × Json))
  deriving BEq, Repr

/-- A transport-level failure (`requests.exceptions.RequestException`):
the exception's string representation and the optional response. -/
structure TransportFailure where
  excMsg : String
  response : Option RespInfo
  deriving BEq, Repr

/-- Outcome of one wire exchange as seen by `_request`'s try block. -/
inductive TransportResult where
  | success (body : Json)
  | failure (f : TransportFailure)

/-- A wire request: HTTP method, full URL, query parameters, body payload. -/
structure Request where
  method : String
  url : String
  params : Option Payload
  data : Option Payload
  deriving BEq, Repr

/-- The network oracle: what the remote end does with each request. -/
abbrev Remote := Request → TransportResult

/-- `client.py` lines 84-92: message extraction from a parsed error body.
`error_data.get(k, d)` is modelled by `(jsonLookup body k).getD d`. -/
def extractErrorMessage (excMsg : String) (error_data : List (String × Json)) : Json :=
  match jsonLookup error_data "errors" with
  | some (Json.obj errs) => (jsonLookup errs "message").getD (Json.str excMsg)
  | some (Json.arr (x :: _)) => x
  | _ => (jsonLookup error_data "message").getD (Json.str excMsg)

/-- `client.py` lines 80-95: conversion of a transport failure into the
structured error. -/
def canvasAPIErrorOf (excMsg : String) (response : Option RespInfo) : CanvasAPIError :=
  match response with
  | some r =>
    match r.body with
    | some b => ⟨r.status_code, extractErrorMessage excMsg b⟩
    | none => ⟨r.status_code, Json.str excMsg⟩
  | none => ⟨500, Json.str excMsg⟩

/-- The message-extraction priority exactly as the claim states it:
(1) `errors` mapping containing `message`; (2) else `errors` non-empty
sequence, first element; (3) else top-level `message`; (4) else the
exception's string representation. -/
def specMessagePriority (excMsg : String) (body : List (String × Json)) : Json :=
  match jsonLookup body "errors" with
  | some (Json.obj errs) =>
    match jsonLookup errs "message" with
    | some m => m
    | none => (jsonLookup body "message").getD (Json.str excMsg)
  | some (Json.arr (x :: _)) => x
  | _ => (jsonLookup body "message").getD (Json.str excMsg)

/-- The amended message-extraction priority: when `errors` is a mapping the
extraction commits to that mapping — its `message` member if present,
otherwise the exception's string representation (the top-level `message`
field is not consulted in that case); otherwise as in the claim. -/
def specAmendedMessage (excMsg : String) (body : List (String × Json)) : Json :=
  match jsonLookup body "errors" with
  | some (Json.obj errs) =>
    match jsonLookup errs "message" with
    | some m => m
    | none => Json.str excMsg
  | some (Json.arr (x :: _)) => x
  | _ => (jsonLookup body "message").getD (Json.str excMsg)

/-- The connection context (`CanvasClient.__init__` keeps the base URL with
trailing slashes stripped, plus the bearer token). -/
structure CanvasClient where
  api_url : String
  api_token : String

/-- `CanvasClient.__init__`: `self.api_url = api_url.rstrip("/")`. -/
def CanvasClient.init (api_url api_token : String) : CanvasClient :=
  ⟨rstripSlashes api_url, api_token⟩

/-- `client.py` line 56: `url = f"{self.api_url}/{endpoint.lstrip('/')}"`. -/
def requestUrl (c : CanvasClient) (endpoint : String) : String :=
  c.api_url ++ "/" ++ lstripSlashes endpoint

/-- Outcome of one issued request: the decoded body on success, the mapped
structured error on a transport failure. -/
def transportOutcome (remote : Remote) (req : Request) : Except CanvasAPIError Json :=
  match remote req with
  | TransportResult.success j => Except.ok j
  | TransportResult.failure f => Except.error (canvasAPIErrorOf f.excMsg f.response)

/-- Errors surfaced by `_request`: the `ValueError` for an unsupported HTTP
method, or the structured API error. -/
inductive ReqError where
  | invalidMethod (method : String)
  | api (e : CanvasAPIError)

/-- `CanvasClient._request` (lines 56-95): dispatch on the method string,
one wire request for a supported method (GET/DELETE drop the body payload),
no request at all for an unsupported method.  Returns the list of wire
requests issued together with the outcome. -/
def CanvasClient.request (c : CanvasClient) (remote : Remote) (method endpoint : String)
    (params data : Option Payload) : List Request × Except ReqError Json :=
  if method = "GET" then
    let req : Request := ⟨method, requestUrl c endpoint, params, none⟩
    ([req], (transportOutcome remote req).mapError ReqError.api)
  else if method = "POST" then
    let req : Request := ⟨method, requestUrl c endpoint, params, data⟩
    ([req], (transportOutcome remote req).mapError ReqError.api)
  else if method = "PUT" then
    let req : Request := ⟨method, requestUrl c endpoint, params, data⟩
    ([req], (transportOutcome remote req).mapError ReqError.api)
  else if method = "DELETE" then
    let req : Request := ⟨method, requestUrl c endpoint, params, none⟩
    ([req], (transportOutcome remote req).mapError ReqError.api)
  else
    ([], Except.error (ReqError.invalidMethod method))

/-- `create_course` payload (client.py lines 114-122). -/
def create_course_data (name : String) (course_code sis_course_id : Option String) : Payload :=
  [("course[name]", Value.str name)]
  ++ truthyEntry "course[course_code]" course_code
  ++ truthyEntry "course[sis_course_id]" sis_course_id

/-- `create_section` payload (client.py lines 138-143). -/
def create_section_data (section_name : String) (sis_section_id : Option String) : Payload :=
  [("course_section[name]", Value.str section_name)]
  ++ truthyEntry "course_section[sis_section_id]" sis_section_id

/-- `update_section` payload (client.py lines 157-160). -/
def update_section_data (section_name : Option String) : Payload :=
  truthyEntry "course_section[name]" section_name

/-- `create_module` prerequisite entries (client.py lines 236-238): a Python
truthiness guard, so `None` and an explicit empty list are both skipped. -/
def prereqEntriesCreate (prerequisite_module_ids : Option (List String)) : Payload :=
  match prerequisite_module_ids with
  | some l => if l.isEmpty then [] else enumIndexed "module[prerequisite_module_ids]" l
  | none => []

/-- `update_module` prerequisite entries (client.py lines 286-291): an
`is not None` guard; an explicit empty list emits the `field[]` sentinel
mapped to the empty string. -/
def prereqEntriesUpdate (prerequisite_module_ids : Option (List String)) : Payload :=
  match prerequisite_module_ids with
  | some l =>
    if l.isEmpty then [("module[prerequisite_module_ids][]", Value.str "")]
    else enumIndexed "module[prerequisite_module_ids]" l
  | none => []

/-- `create_module` payload (client.py lines 223-241).  Note the truthiness
guard on `prerequisite_module_ids`: an explicit empty list is skipped. -/
def create_module_data (name : String) (position : Option Int) (unlock_at : Option String)
    (require_sequential_progress : Option Bool) (prerequisite_module_ids : Option (List String))
    (publish_final_grade : Option Bool) : Payload :=
  [("module[name]", Value.str name)]
  ++ optEntry "module[position]" (position.map Value.int)
  ++ optEntry "module[unlock_at]" (unlock_at.map Value.str)
  ++ optEntry "module[require_sequential_progress]" (require_sequential_progress.map Value.bool)
  ++ prereqEntriesCreate prerequisite_module_ids
  ++ optEntry "module[publish_final_grade]" (publish_final_grade.map Value.bool)

/-- `update_module` payload (client.py lines 272-294).  An explicitly
supplied empty prerequisite list emits the `field[]` sentinel mapped to the
empty string. -/
def update_module_data (name : Option String) (position : Option Int) (unlock_at : Option String)
    (require_sequential_progress : Option Bool) (prerequisite_module_ids : Option (List String))
    (publish_final_grade : Option Bool) : Payload :=
  optEntry "module[name]" (name.map Value.str)
  ++ optEntry "module[position]" (position.map Value.int)
  ++ optEntry "module[unlock_at]" (unlock_at.map Value.str)
  ++ optEntry "module[require_sequential_progress]" (require_sequential_progress.map Value.bool)
  ++ prereqEntriesUpdate prerequisite_module_ids
  ++ optEntry "module[publish_final_grade]" (publish_final_grade.map Value.bool)

/-- Completion-requirement entries shared by `create_module_item` and
`update_module_item` (client.py lines 397-405 and 457-465): a Python
truthiness guard on the dict, then `cr.get("type", "")`, then the
`min_score` member only when the key is present. -/
def completionRequirementEntries (completion_requirement : Option (List (String × Value))) :
    Payload :=
  match completion_requirement with
  | some cr =>
    if cr.isEmpty then []
    else
      [("module_item[completion_requirement][type]",
        (Payload.lookup cr "type").getD (Value.str ""))]
      ++ (match Payload.lookup cr "min_score" with
          | some v => [("module_item[completion_requirement][min_score]", v)]
          | none => [])
  | none => []

/-- `create_module_item` page-url entry (client.py lines 388-389):
`if page_url is not None and type == "Page"`. -/
def pageUrlEntry (type : String) (page_url : Option String) : Payload :=
  match page_url with
  | some u => if type = "Page" then [("module_item[page_url]", Value.str u)] else []
  | none => []

/-- `create_module_item` external-url entry (client.py lines 391-392):
`if external_url is not None and type == "ExternalUrl"`. -/
def externalUrlEntry (type : String) (external_url : Option String) : Payload :=
  match external_url with
  | some u => if type = "ExternalUrl" then [("module_item[external_url]", Value.str u)] else []
  | none => []

/-- `create_module_item` payload (client.py lines 374-405). -/
def create_module_item_data (title type content_id : String) (position indent : Option Int)
    (page_url external_url : Option String) (new_tab : Option Bool)
    (completion_requirement : Option (List (String × Value))) : Payload :=
  [("module_item[title]", Value.str title), ("module_item[type]", Value.str type)]
  ++ (if type = "ExternalUrl" then [] else [("module_item[content_id]", Value.str content_id)])
  ++ optEntry "module_item[position]" (position.map Value.int)
  ++ optEntry "module_item[indent]" (indent.map Value.int)
  ++ pageUrlEntry type page_url
  ++ externalUrlEntry type external_url
  ++ optEntry "module_item[new_tab]" (new_tab.map Value.bool)
  ++ completionRequirementEntries completion_requirement

/-- `update_module_item` payload (client.py lines 440-465). -/
def update_module_item_data (title : Option String) (position indent : Option Int)
    (external_url : Option String) (new_tab : Option Bool)
    (completion_requirement : Option (List (String × Value))) : Payload :=
  optEntry "module_item[title]" (title.map Value.str)
  ++ optEntry "module_item[position]" (position.map Value.int)
  ++ optEntry "module_item[indent]" (indent.map Value.int)
  ++ optEntry "module_item[external_url]" (external_url.map Value.str)
  ++ optEntry "module_item[new_tab]" (new_tab.map Value.bool)
  ++ completionRequirementEntries completion_requirement

/-- `create_page` payload (client.py lines 542-554). -/
def create_page_data (title body : String) (editing_roles : Option String)
    (published front_page : Option Bool) : Payload :=
  [("wiki_page[title]", Value.str title), ("wiki_page[body]", Value.str body)]
  ++ optEntry "wiki_page[editing_roles]" (editing_roles.map Value.str)
  ++ optEntry "wiki_page[published]" (published.map Value.bool)
  ++ optEntry "wiki_page[front_page]" (front_page.map Value.bool)

/-- `update_page` payload (client.py lines 583-598). -/
def update_page_data (title body editing_roles : Option String)
    (published front_page : Option Bool) : Payload :=
  optEntry "wiki_page[title]" (title.map Value.str)
  ++ optEntry "wiki_page[body]" (body.map Value.str)
  ++ optEntry "wiki_page[editing_roles]" (editing_roles.map Value.str)
  ++ optEntry "wiki_page[published]" (published.map Value.bool)
  ++ optEntry "wiki_page[front_page]" (front_page.map Value.bool)

/-- `list_pages` query parameters (client.py lines 499-501). -/
def list_pages_params (search_term : Option String) : Payload :=
  truthyEntry "search_term" search_term

/-- `get_courses` (client.py line 100). -/
def CanvasClient.get_courses (c : CanvasClient) (remote : Remote) (params : Option Payload) :
    List Request × Except ReqError Json :=
  c.request remote "GET" "courses" params none

/-- `get_course` (client.py line 104). -/
def CanvasClient.get_course (c : CanvasClient) (remote : Remote) (course_id : String) :
    List Request × Except ReqError Json :=
  c.request remote "GET" ("courses/" ++ course_id) none none

/-- `list_sections` (client.py line 129). -/
def CanvasClient.list_sections (c : CanvasClient) (remote : Remote) (course_id : String) :
    List Request × Except ReqError Json :=
  c.request remote "GET" ("courses/" ++ course_id ++ "/sections") none none

/-- `list_modules` (client.py line 183). -/
def CanvasClient.list_modules (c : CanvasClient) (remote : Remote) (course_id : String) :
    List Request × Except ReqError Json :=
  c.request remote "GET" ("courses/" ++ course_id ++ "/modules") none none

/-- `get_module` (client.py line 196). -/
def CanvasClient.get_module (c : CanvasClient) (remote : Remote) (course_id module_id : String) :
    List Request × Except ReqError Json :=
  c.request remote "GET" ("courses/" ++ course_id ++ "/modules/" ++ module_id) none none

/-- `list_module_items` (client.py line 323). -/
def CanvasClient.list_module_items (c : CanvasClient) (remote : Remote)
    (course_id module_id : String) : List Request × Except ReqError Json :=
  c.request remote "GET" ("courses/" ++ course_id ++ "/modules/" ++ module_id ++ "/items")
    none none

/-- `get_module_item` (client.py lines 337-339). -/
def CanvasClient.get_module_item (c : CanvasClient) (remote : Remote)
    (course_id module_id item_id : String) : List Request × Except ReqError Json :=
  c.request remote "GET"
    ("courses/" ++ course_id ++ "/modules/" ++ module_id ++ "/items/" ++ item_id) none none

/-- `list_pages` (client.py lines 499-503). -/
def CanvasClient.list_pages (c : CanvasClient) (remote : Remote) (course_id : String)
    (search_term : Option String) : List Request × Except ReqError Json :=
  c.request remote "GET" ("courses/" ++ course_id ++ "/pages")
    (some (list_pages_params search_term)) none

/-- `get_page` (client.py line 516). -/
def CanvasClient.get_page (c : CanvasClient) (remote : Remote) (course_id page_url : String) :
    List Request × Except ReqError Json :=
  c.request remote "GET" ("courses/" ++ course_id ++ "/pages/" ++ page_url) none none

/-- `create_page` (client.py line 556). -/
def CanvasClient.create_page (c : CanvasClient) (remote : Remote) (course_id title body : String)
    (editing_roles : Option String) (published front_page : Option Bool) :
    List Request × Except ReqError Json :=
  c.request remote "POST" ("courses/" ++ course_id ++ "/pages") none
    (some (create_page_data title body editing_roles published front_page))

/-- `create_module_item` (client.py lines 407-409). -/
def CanvasClient.create_module_item (c : CanvasClient) (remote : Remote)
    (course_id module_id title type content_id : String) (position indent : Option Int)
    (page_url external_url : Option String) (new_tab : Option Bool)
    (completion_requirement : Option (List (String × Value))) :
    List Request × Except ReqError Json :=
  c.request remote "POST" ("courses/" ++ course_id ++ "/modules/" ++ module_id ++ "/items") none
    (some (create_module_item_data title type content_id position indent page_url external_url
      new_tab completion_requirement))

/-- Python `j.get(k, d)` on a decoded JSON value known to be an object. -/
def pyGetD (j : Json) (k : String) (d : Json) : Json :=
  match j with
  | Json.obj m => (jsonLookup m k).getD d
  | _ => d

/-- String content of a JSON value expected to be a string. -/
def jStrD (j : Json) : String :=
  match j with
  | Json.str s => s
  | _ => ""

/-- Python `str(...)` on the JSON scalars relevant here. -/
def pyStrOf (j : Json) : String :=
  match j with
  | Json.str s => s
  | Json.int n => toString n
  | Json.num q => toString q
  | Json.bool b => cond b "True" "False"
  | Json.null => "None"
  | Json.arr _ => ""
  | Json.obj _ => ""

/-- Python `u.split("/")[-1]`. -/
def lastSegment (u : String) : String :=
  (u.splitOn "/").getLastD ""

/-- server.py line 637: `page.get("url", "").split("/")[-1]`. -/
def pageSlugOf (page : Json) : String :=
  lastSegment (jStrD (pyGetD page "url" (Json.str "")))

/-- `add_page_to_module` (client.py lines 615-656): fetch the page by its
slug, then create a module item of type Page referencing that slug. -/
def CanvasClient.add_page_to_module (c : CanvasClient) (remote : Remote)
    (course_id module_id page_url : String) (title : Option String)
    (position indent : Option Int) (new_tab : Option Bool) :
    List Request × Except ReqError Json :=
  let r1 := c.get_page remote course_id page_url
  match r1.2 with
  | Except.error e => (r1.1, Except.error e)
  | Except.ok page =>
    let r2 := c.create_module_item remote course_id module_id
      (pyOrStr title (jStrD (pyGetD page "title" (Json.str ""))))
      "Page" (pyStrOf (pyGetD page "id" (Json.str "")))
      position indent (some page_url) none new_tab none
    (r1.1 ++ r2.1, r2.2)

/-- server.py lines 350-354: completion requirement dict built by the tool
layer from `completion_requirement_type` and `min_score`. -/
def serverCompletionRequirement (completion_requirement_type : Option String)
    (min_score : Option Rat) : Option (List (String × Value)) :=
  match completion_requirement_type with
  | some t =>
    if t = "" then none
    else some ([("type", Value.str t)]
      ++ (if t = "min_score" then
            match min_score with
            | some ms => [("min_score", Value.num ms)]
            | none => []
          else []))
  | none => none

/-- server.py lines 315-368: the `create_module_item` tool; passes
`content_id or ""` down to the client. -/
def server_create_module_item (c : CanvasClient) (remote : Remote)
    (course_id module_id title type : String) (content_id : Option String)
    (position indent : Option Int) (page_url external_url : Option String)
    (new_tab : Option Bool) (completion_requirement_type : Option String)
    (min_score : Option Rat) : List Request × Except ReqError Json :=
  c.create_module_item remote course_id module_id title type (pyOrStr content_id "")
    position indent page_url external_url new_tab
    (serverCompletionRequirement completion_requirement_type min_score)

/-- server.py lines 594-647: the `create_page_and_add_to_module` tool;
creates the page, derives the slug from the trailing path segment of the
created page's URL, then delegates to `add_page_to_module`. -/
def server_create_page_and_add_to_module (c : CanvasClient) (remote : Remote)
    (course_id module_id title body : String) (editing_roles : Option String)
    (published front_page : Option Bool) (module_item_position module_item_indent : Option Int)
    (new_tab : Option Bool) : List Request × Except ReqError Json :=
  let r1 := c.create_page remote course_id title body editing_roles published front_page
  match r1.2 with
  | Except.error e => (r1.1, Except.error e)
  | Except.ok page =>
    let page_url := pageSlugOf page
    let r2 := c.add_page_to_module remote course_id module_id page_url (some title)
      module_item_position module_item_indent new_tab
    (r1.1 ++ r2.1, r2.2)

/-- A concrete oracle used for closed evaluations: every request succeeds
with the same created-page object. -/
def demoRemote : Remote := fun _ =>
  TransportResult.success (Json.obj
    [("url", Json.str "https://canvas.example.com/courses/1/pages/intro"),
     ("title", Json.str "Intro"),
     ("id", Json.int 42)])

/-! ### Payload key lemmas -/

theorem hasKey_append (a b : Payload) (k : String) :
    (a ++ b).hasKey k = (a.hasKey k || b.hasKey k) := by
  simp [Payload.hasKey]

theorem hasKey_single (k' k : String) (v : Value) :
    Payload.hasKey [(k', v)] k = (k' == k) := by
  simp [Payload.hasKey]

theorem hasKey_cons (k' k : String) (v : Value) (p : Payload) :
    Payload.hasKey ((k', v) :: p) k = ((k' == k) || p.hasKey k) := by
  simp [Payload.hasKey]

theorem hasKey_optEntry (k' k : String) (v : Option Value) :
    (optEntry k' v).hasKey k = (v.isSome && (k' == k)) := by
  cases v <;> simp [optEntry, Payload.hasKey]

theorem hasKey_truthyEntry (k' k : String) (v : Option String) :
    (truthyEntry k' v).hasKey k = (pyTruthyStr v && (k' == k)) := by
  cases v with
  | none => rfl
  | some s =>
    by_cases h : s = "" <;> simp [truthyEntry, pyTruthyStr, Payload.hasKey, h]

theorem hasKey_pageUrlEntry_self (type : String) (pu : Option String) :
    (pageUrlEntry type pu).hasKey "module_item[page_url]" = (pu.isSome && (type == "Page")) := by
  cases pu with
  | none => rfl
  | some u => by_cases h : type = "Page" <;> simp [pageUrlEntry, Payload.hasKey, h]

theorem hasKey_pageUrlEntry_ne (type : String) (pu : Option String) (k : String)
    (h : ("module_item[page_url]" == k) = false) : (pageUrlEntry type pu).hasKey k = false := by
  cases pu with
  | none => rfl
  | some u => by_cases h2 : type = "Page" <;> simp [pageUrlEntry, Payload.hasKey, h, h2]

theorem hasKey_externalUrlEntry_self (type : String) (eu : Option String) :
    (externalUrlEntry type eu).hasKey "module_item[external_url]"
      = (eu.isSome && (type == "ExternalUrl")) := by
  cases eu with
  | none => rfl
  | some u => by_cases h : type = "ExternalUrl" <;> simp [externalUrlEntry, Payload.hasKey, h]

theorem hasKey_externalUrlEntry_ne (type : String) (eu : Option String) (k : String)
    (h : ("module_item[external_url]" == k) = false) :
    (externalUrlEntry type eu).hasKey k = false := by
  cases eu with
  | none => rfl
  | some u => by_cases h2 : type = "ExternalUrl" <;> simp [externalUrlEntry, Payload.hasKey, h, h2]

theorem hasKey_crEntries_type (cr : Option (List (String × Value))) :
    (completionRequirementEntries cr).hasKey "module_item[completion_requirement][type]"
      = pyTruthyDict cr := by
  cases cr with
  | none => rfl
  | some m =>
    cases m with
    | nil => rfl
    | cons x xs =>
      cases hms : Payload.lookup (x :: xs) "min_score" <;>
        simp [completionRequirementEntries, pyTruthyDict, Payload.hasKey, hms]

theorem hasKey_crEntries_ne (cr : Option (List (String × Value))) (k : String)
    (h1 : ("module_item[completion_requirement][type]" == k) = false)
    (h2 : ("module_item[completion_requirement][min_score]" == k) = false) :
    (completionRequirementEntries cr).hasKey k = false := by
  cases cr with
  | none => rfl
  | some m =>
    cases m with
    | nil => rfl
    | cons x xs =>
      cases hms : Payload.lookup (x :: xs) "min_score" <;>
        simp [completionRequirementEntries, Payload.hasKey, hms, h1, h2]

/-! ### Indexed-key lemmas -/

theorem isPrefixOf_append_self (l t : List Char) : List.isPrefixOf l (l ++ t) = true := by
  induction l with
  | nil => simp
  | cons a as ih => simp [List.isPrefixOf_cons₂, ih]

theorem strHasPre_idxKey (f : String) (i : Nat) : strHasPre f (idxKey f i) = true := by
  have h : (idxKey f i).data = f.data ++ ("[" ++ toString i ++ "]").data := by
    simp [idxKey, List.append_assoc]
  simp [strHasPre, h, isPrefixOf_append_self]

theorem idxKey_ne_self (f : String) (i : Nat) : idxKey f i ≠ f := by
  intro h
  have h2 := congrArg String.length h
  have hl : ("[" : String).length = 1 := rfl
  have hr : ("]" : String).length = 1 := rfl
  simp [idxKey, String.length_append, hl, hr] at h2
  omega

theorem hasKey_enumIndexed_bare (f : String) (l : List String) :
    (enumIndexed f l).hasKey f = false := by
  rw [Payload.hasKey, List.any_eq_false]
  intro kv hkv
  rcases List.mem_map.mp hkv with ⟨iv, _, rfl⟩
  simp [idxKey_ne_self]

theorem hasKey_enumIndexed_zero (f : String) (x : String) (xs : List String) :
    (enumIndexed f (x :: xs)).hasKey (idxKey f 0) = true := by
  simp [enumIndexed, List.enum_cons, Payload.hasKey]

theorem keysWithPre_append (pre : String) (a b : Payload) :
    keysWithPre pre (a ++ b) = keysWithPre pre a ++ keysWithPre pre b := by
  simp [keysWithPre, List.filter_append]

theorem keysWithPre_single_out (pre k : String) (v : Value) (h : strHasPre pre k = false) :
    keysWithPre pre [(k, v)] = [] := by
  simp [keysWithPre, List.filter, h]

theorem keysWithPre_single_in (pre k : String) (v : Value) (h : strHasPre pre k = true) :
    keysWithPre pre [(k, v)] = [k] := by
  simp [keysWithPre, List.filter, h]

theorem keysWithPre_optEntry (pre k : String) (v : Option Value) (h : strHasPre pre k = false) :
    keysWithPre pre (optEntry k v) = [] := by
  cases v with
  | none => rfl
  | some x => exact keysWithPre_single_out pre k x h

theorem keysWithPre_enumIndexed (f : String) (l : List String) :
    keysWithPre f (enumIndexed f l) = (List.range l.length).map (idxKey f) := by
  have hfilter : (enumIndexed f l).filter (fun kv => strHasPre f kv.1) = enumIndexed f l := by
    rw [List.filter_eq_self]
    intro a ha
    rcases List.mem_map.mp ha with ⟨iv, _, rfl⟩
    simp [strHasPre_idxKey]
  have hfst : (enumIndexed f l).map Prod.fst = (l.enum.map Prod.fst).map (idxKey f) := by
    simp only [enumIndexed, List.map_map]
    rfl
  rw [keysWithPre, hfilter, hfst, List.enum_eq_enumFrom, List.enumFrom_map_fst,
    ← List.range_eq_range']

/-! ### Lookup lemmas -/

theorem lookup_append (a b : Payload) (k : String) :
    (a ++ b).lookup k = (a.lookup k).or (b.lookup k) := by
  simp only [Payload.lookup, List.find?_append]
  cases a.find? (fun kv => kv.1 == k) <;> simp

theorem lookup_optEntry_ne (k' k : String) (v : Option Value) (h : (k' == k) = false) :
    (optEntry k' v).lookup k = none := by
  cases v <;> simp [optEntry, Payload.lookup, List.find?, h]

theorem lookup_single_ne (k' k : String) (v : Value) (h : (k' == k) = false) :
    Payload.lookup [(k', v)] k = none := by
  simp [Payload.lookup, List.find?, h]

theorem lookup_single_self (k : String) (v : Value) :
    Payload.lookup [(k, v)] k = some v := by
  simp [Payload.lookup, List.find?]

theorem lookup_cons_self (k : String) (v : Value) (p : Payload) :
    Payload.lookup ((k, v) :: p) k = some v := by
  simp [Payload.lookup, List.find?]

/-! ### String slash lemmas -/

theorem lstripSlashes_slash (e : String) : lstripSlashes ("/" ++ e) = lstripSlashes e := by
  have h : ("/" ++ e).data = '/' :: e.data := rfl
  simp [lstripSlashes, h, List.dropWhile]

theorem rstripSlashes_slash (b : String) : rstripSlashes (b ++ "/") = rstripSlashes b := by
  have h : (b ++ "/").data.reverse = '/' :: b.data.reverse := by
    simp [String.data_append]
  simp [rstripSlashes, h, List.dropWhile]

theorem isPrefixOf_slash_dropWhile (l : List Char) :
    List.isPrefixOf ['/'] (l.dropWhile (fun c => c == '/')) = false := by
  induction l with
  | nil => rfl
  | cons c cs ih =>
    by_cases h : c = '/'
    · simpa [List.dropWhile, h] using ih
    · have hb : (c == '/') = false := by simp [h]
      have hb2 : ('/' == c) = false := by
        simp
        exact fun hc => h hc.symm
      simp [List.dropWhile, hb, List.isPrefixOf_cons₂, hb2]

theorem lstrip_no_leading_slash (e : String) : strHasPre "/" (lstripSlashes e) = false := by
  have h : ("/" : String).data = ['/'] := rfl
  simp [strHasPre, lstripSlashes, h, isPrefixOf_slash_dropWhile]

theorem rstrip_no_trailing_slash (b : String) : strEndsSlash (rstripSlashes b) = false := by
  simp [strEndsSlash, rstripSlashes, List.reverse_reverse, isPrefixOf_slash_dropWhile]

/-! ### Request dispatch lemmas -/

theorem request_GET (c : CanvasClient) (remote : Remote) (endpoint : String)
    (params data : Option Payload) :
    c.request remote "GET" endpoint params data =
      ([⟨"GET", requestUrl c endpoint, params, none⟩],
       (transportOutcome remote ⟨"GET", requestUrl c endpoint, params, none⟩).mapError
         ReqError.api) := by
  simp [CanvasClient.request]

theorem request_POST (c : CanvasClient) (remote : Remote) (endpoint : String)
    (params data : Option Payload) :
    c.request remote "POST" endpoint params data =
      ([⟨"POST", requestUrl c endpoint, params, data⟩],
       (transportOutcome remote ⟨"POST", requestUrl c endpoint, params, data⟩).mapError
         ReqError.api) := by
  simp [CanvasClient.request]

/-! ### Claim theorems -/

theorem hasKey_nil (k : String) : Payload.hasKey [] k = false := rfl

/-- Claim C4: for every call to `create_module_item`, the payload contains
`module_item[content_id]` if and only if the item type is not `ExternalUrl`:
for type `ExternalUrl` the field is always omitted, and for every other type
it is always included. -/
theorem claim_C4_content_id_iff_not_external
    (title type content_id : String) (position indent : Option Int)
    (page_url external_url : Option String) (new_tab : Option Bool)
    (cr : Option (List (String × Value))) :
    (create_module_item_data title type content_id position indent page_url external_url
        new_tab cr).hasKey "module_item[content_id]"
      = !(type == "ExternalUrl") := by
  by_cases h : type = "ExternalUrl"
  · subst h
    simp [create_module_item_data, hasKey_append, hasKey_cons, hasKey_single, hasKey_optEntry,
      hasKey_nil,
      hasKey_pageUrlEntry_ne "ExternalUrl" page_url "module_item[content_id]" (by decide),
      hasKey_externalUrlEntry_ne "ExternalUrl" external_url "module_item[content_id]" (by decide),
      hasKey_crEntries_ne cr "module_item[content_id]" (by decide) (by decide)]
  · simp [create_module_item_data, hasKey_append, hasKey_cons, hasKey_single, hasKey_optEntry,
      hasKey_nil, h,
      hasKey_pageUrlEntry_ne type page_url "module_item[content_id]" (by decide),
      hasKey_externalUrlEntry_ne type external_url "module_item[content_id]" (by decide),
      hasKey_crEntries_ne cr "module_item[content_id]" (by decide) (by decide)]

/-- Claim C5: in `create_module_item`, a supplied `page_url` appears in the
payload iff the item type is `Page`, a supplied `external_url` appears iff
the item type is `ExternalUrl`; a URL field supplied with a mismatched type
is silently dropped and the call still issues its request (it is not
rejected). -/
theorem claim_C5_url_fields_match_type
    (c : CanvasClient) (remote : Remote) (course_id module_id : String)
    (title type content_id : String) (position indent : Option Int)
    (page_url external_url : Option String) (new_tab : Option Bool)
    (cr : Option (List (String × Value))) :
    (create_module_item_data title type content_id position indent page_url external_url
        new_tab cr).hasKey "module_item[page_url]"
      = (page_url.isSome && (type == "Page"))
    ∧ (create_module_item_data title type content_id position indent page_url external_url
        new_tab cr).hasKey "module_item[external_url]"
      = (external_url.isSome && (type == "ExternalUrl"))
    ∧ (c.create_module_item remote course_id module_id title type content_id position indent
        page_url external_url new_tab cr).1.length = 1 := by
  refine ⟨?_, ?_, ?_⟩
  · by_cases h : type = "ExternalUrl"
    · subst h
      simp [create_module_item_data, hasKey_append, hasKey_cons, hasKey_single, hasKey_optEntry,
        hasKey_nil, hasKey_pageUrlEntry_self,
        hasKey_externalUrlEntry_ne "ExternalUrl" external_url "module_item[page_url]" (by decide),
        hasKey_crEntries_ne cr "module_item[page_url]" (by decide) (by decide)]
    · simp [create_module_item_data, hasKey_append, hasKey_cons, hasKey_single, hasKey_optEntry,
        hasKey_nil, h, hasKey_pageUrlEntry_self,
        hasKey_externalUrlEntry_ne type external_url "module_item[page_url]" (by decide),
        hasKey_crEntries_ne cr "module_item[page_url]" (by decide) (by decide)]
  · by_cases h : type = "ExternalUrl"
    · subst h
      simp [create_module_item_data, hasKey_append, hasKey_cons, hasKey_single, hasKey_optEntry,
        hasKey_nil, hasKey_externalUrlEntry_self,
        hasKey_pageUrlEntry_ne "ExternalUrl" page_url "module_item[external_url]" (by decide),
        hasKey_crEntries_ne cr "module_item[external_url]" (by decide) (by decide)]
    · simp [create_module_item_data, hasKey_append, hasKey_cons, hasKey_single, hasKey_optEntry,
        hasKey_nil, h, hasKey_externalUrlEntry_self,
        hasKey_pageUrlEntry_ne type page_url "module_item[external_url]" (by decide),
        hasKey_crEntries_ne cr "module_item[external_url]" (by decide) (by decide)]
  · simp [CanvasClient.create_module_item, request_POST]

/-- Claim C7: every read operation (`get_courses`, `get_course`,
`list_sections`, `list_modules`, `get_module`, `list_module_items`,
`get_module_item`, `list_pages`, `get_page`) issues exactly one network
call, that call uses the GET method, and no state-mutating request is ever
issued: each trace is exactly the one GET request shown. -/
theorem claim_C7_read_ops_single_get
    (c : CanvasClient) (remote : Remote) (params : Option Payload)
    (course_id module_id item_id page_url : String) (search_term : Option String) :
    (c.get_courses remote params).1 = [⟨"GET", requestUrl c "courses", params, none⟩]
    ∧ (c.get_course remote course_id).1
        = [⟨"GET", requestUrl c ("courses/" ++ course_id), none, none⟩]
    ∧ (c.list_sections remote course_id).1
        = [⟨"GET", requestUrl c ("courses/" ++ course_id ++ "/sections"), none, none⟩]
    ∧ (c.list_modules remote course_id).1
        = [⟨"GET", requestUrl c ("courses/" ++ course_id ++ "/modules"), none, none⟩]
    ∧ (c.get_module remote course_id module_id).1
        = [⟨"GET", requestUrl c ("courses/" ++ course_id ++ "/modules/" ++ module_id),
            none, none⟩]
    ∧ (c.list_module_items remote course_id module_id).1
        = [⟨"GET",
            requestUrl c ("courses/" ++ course_id ++ "/modules/" ++ module_id ++ "/items"),
            none, none⟩]
    ∧ (c.get_module_item remote course_id module_id item_id).1
        = [⟨"GET",
            requestUrl c
              ("courses/" ++ course_id ++ "/modules/" ++ module_id ++ "/items/" ++ item_id),
            none, none⟩]
    ∧ (c.list_pages remote course_id search_term).1
        = [⟨"GET", requestUrl c ("courses/" ++ course_id ++ "/pages"),
            some (list_pages_params search_term), none⟩]
    ∧ (c.get_page remote course_id page_url).1
        = [⟨"GET", requestUrl c ("courses/" ++ course_id ++ "/pages/" ++ page_url),
            none, none⟩] := by
  refine ⟨?_, ?_, ?_, ?_, ?_, ?_, ?_, ?_, ?_⟩ <;>
    simp [CanvasClient.get_courses, CanvasClient.get_course, CanvasClient.list_sections,
      CanvasClient.list_modules, CanvasClient.get_module, CanvasClient.list_module_items,
      CanvasClient.get_module_item, CanvasClient.list_pages, CanvasClient.get_page,
      request_GET]

/-- Claim C9: for every HTTP method string other than GET, POST, PUT, and
DELETE, `_request` fails with the invalid-method error and issues no
network call. -/
theorem claim_C9_invalid_method_no_request
    (c : CanvasClient) (remote : Remote) (method endpoint : String)
    (params data : Option Payload)
    (h1 : method ≠ "GET") (h2 : method ≠ "POST") (h3 : method ≠ "PUT")
    (h4 : method ≠ "DELETE") :
    c.request remote method endpoint params data
      = ([], Except.error (ReqError.invalidMethod method)) := by
  simp [CanvasClient.request, h1, h2, h3, h4]

/-- Witness for C9 at the concrete method `PATCH`. -/
theorem claim_C9_witness :
    (CanvasClient.init "https://canvas.example.com/api/v1" "token").request demoRemote
        "PATCH" "courses" none none
      = ([], Except.error (ReqError.invalidMethod "PATCH")) :=
  claim_C9_invalid_method_no_request _ demoRemote "PATCH" "courses" none none
    (by decide) (by decide) (by decide) (by decide)

/-- Counterexample for C8: the endpoint's trailing slash is NOT normalized
away — `"courses/"` and `"courses"` produce different wire URLs. -/
theorem claim_C8_counterexample :
    requestUrl (CanvasClient.init "https://canvas.example.com/api/v1" "token") "courses/"
      ≠ requestUrl (CanvasClient.init "https://canvas.example.com/api/v1" "token") "courses" := by
  decide

/-- Amended C8: the wire URL is the base URL joined to the endpoint by
exactly one slash; trailing slashes of the base (stripped at construction)
and leading slashes of the endpoint are normalized away, so the same
request results regardless of extra leading slashes on the endpoint or
trailing slashes on the base; the joined URL's endpoint part starts with no
slash and the base part ends with no slash.  (Trailing slashes on the
endpoint are preserved.) -/
theorem claim_C8_url_join_amended (c : CanvasClient) (api_url api_token endpoint : String) :
    requestUrl (CanvasClient.init api_url api_token) endpoint
      = rstripSlashes api_url ++ "/" ++ lstripSlashes endpoint
    ∧ requestUrl c ("/" ++ endpoint) = requestUrl c endpoint
    ∧ requestUrl (CanvasClient.init (api_url ++ "/") api_token) endpoint
      = requestUrl (CanvasClient.init api_url api_token) endpoint
    ∧ strHasPre "/" (lstripSlashes endpoint) = false
    ∧ strEndsSlash (rstripSlashes api_url) = false := by
  refine ⟨rfl, ?_, ?_, lstrip_no_leading_slash endpoint, rstrip_no_trailing_slash api_url⟩
  · simp [requestUrl, lstripSlashes_slash]
  · simp [requestUrl, CanvasClient.init, rstripSlashes_slash]

theorem extract_eq_amended (excMsg : String) (body : List (String × Json)) :
    extractErrorMessage excMsg body = specAmendedMessage excMsg body := by
  unfold extractErrorMessage specAmendedMessage
  cases h : jsonLookup body "errors" with
  | none => rfl
  | some j =>
    cases j with
    | obj errs => cases hm : jsonLookup errs "message" <;> simp [hm]
    | arr elems => cases elems <;> rfl
    | null => rfl
    | bool b => rfl
    | int n => rfl
    | num q => rfl
    | str s => rfl

/-- Counterexample for C2: when the body's `errors` field is a mapping that
does not contain `message`, the code falls back to the exception's string
representation and never consults the top-level `message` field, contrary
to the claimed priority order. -/
theorem claim_C2_counterexample :
    specMessagePriority "ConnectionError"
        [("errors", Json.obj []), ("message", Json.str "top")]
      = Json.str "top"
    ∧ (canvasAPIErrorOf "ConnectionError"
        (some ⟨401, some [("errors", Json.obj []), ("message", Json.str "top")]⟩)).message
      = Json.str "ConnectionError"
    ∧ Json.str "top" ≠ Json.str "ConnectionError" := by
  refine ⟨rfl, rfl, by simp⟩

/-- Amended C2: transport failures map to the structured error with the
response's status code; the message follows the priority order except that
when `errors` is a mapping the extraction commits to it — using its
`message` member if present and otherwise the exception's string
representation, without consulting the top-level `message` field.  Absent
or unparseable bodies use the exception's string representation, and with
no response at all the error is status 500 with that string. -/
theorem claim_C2_error_mapping_amended (excMsg : String) (status_code : Int)
    (body : List (String × Json)) :
    canvasAPIErrorOf excMsg none = ⟨500, Json.str excMsg⟩
    ∧ canvasAPIErrorOf excMsg (some ⟨status_code, none⟩) = ⟨status_code, Json.str excMsg⟩
    ∧ canvasAPIErrorOf excMsg (some ⟨status_code, some body⟩)
        = ⟨status_code, specAmendedMessage excMsg body⟩ := by
  refine ⟨rfl, rfl, ?_⟩
  simp [canvasAPIErrorOf, extract_eq_amended]

theorem hasKey_enumIndexed_not_pre (f k : String) (l : List String)
    (h : strHasPre f k = false) : (enumIndexed f l).hasKey k = false := by
  rw [Payload.hasKey, List.any_eq_false]
  intro kv hkv
  rcases List.mem_map.mp hkv with ⟨iv, _, rfl⟩
  intro hb
  have he : idxKey f iv.1 = k := by simpa using hb
  rw [← he, strHasPre_idxKey f iv.1] at h
  exact Bool.noConfusion h

theorem hasKey_prereqCreate_not_pre (k : String) (ol : Option (List String))
    (h : strHasPre "module[prerequisite_module_ids]" k = false) :
    (prereqEntriesCreate ol).hasKey k = false := by
  cases ol with
  | none => rfl
  | some l =>
    cases l with
    | nil => rfl
    | cons x xs =>
      simpa [prereqEntriesCreate] using
        hasKey_enumIndexed_not_pre "module[prerequisite_module_ids]" k (x :: xs) h

theorem hasKey_prereqUpdate_not_pre (k : String) (ol : Option (List String))
    (h1 : strHasPre "module[prerequisite_module_ids]" k = false)
    (h2 : ("module[prerequisite_module_ids][]" == k) = false) :
    (prereqEntriesUpdate ol).hasKey k = false := by
  cases ol with
  | none => rfl
  | some l =>
    cases l with
    | nil => simp [prereqEntriesUpdate, Payload.hasKey, h2]
    | cons x xs =>
      simpa [prereqEntriesUpdate] using
        hasKey_enumIndexed_not_pre "module[prerequisite_module_ids]" k (x :: xs) h1

theorem hasKey_prereqCreate_zero (ol : Option (List String)) :
    (prereqEntriesCreate ol).hasKey "module[prerequisite_module_ids][0]" = pyTruthyList ol := by
  have e0 : idxKey "module[prerequisite_module_ids]" 0 = "module[prerequisite_module_ids][0]" :=
    rfl
  cases ol with
  | none => rfl
  | some l =>
    cases l with
    | nil => rfl
    | cons x xs =>
      simp [prereqEntriesCreate, enumIndexed, List.enum_cons, Payload.hasKey, e0, pyTruthyList]

theorem hasKey_prereqUpdate_some (ol : Option (List String)) :
    ((prereqEntriesUpdate ol).hasKey "module[prerequisite_module_ids][0]"
      || (prereqEntriesUpdate ol).hasKey "module[prerequisite_module_ids][]") = ol.isSome := by
  have e0 : idxKey "module[prerequisite_module_ids]" 0 = "module[prerequisite_module_ids][0]" :=
    rfl
  cases ol with
  | none => rfl
  | some l =>
    cases l with
    | nil => simp [prereqEntriesUpdate, Payload.hasKey]
    | cons x xs =>
      simp [prereqEntriesUpdate, enumIndexed, List.enum_cons, Payload.hasKey, e0]

theorem hasKey_pageUrlEntry (type : String) (pu : Option String) (k : String) :
    (pageUrlEntry type pu).hasKey k
      = (pu.isSome && (type == "Page") && ("module_item[page_url]" == k)) := by
  cases pu with
  | none => rfl
  | some u => by_cases h : type = "Page" <;> simp [pageUrlEntry, Payload.hasKey, h]

theorem hasKey_externalUrlEntry (type : String) (eu : Option String) (k : String) :
    (externalUrlEntry type eu).hasKey k
      = (eu.isSome && (type == "ExternalUrl") && ("module_item[external_url]" == k)) := by
  cases eu with
  | none => rfl
  | some u => by_cases h : type = "ExternalUrl" <;> simp [externalUrlEntry, Payload.hasKey, h]

theorem hasKey_crEntries (cr : Option (List (String × Value))) (k : String) :
    (completionRequirementEntries cr).hasKey k
      = (pyTruthyDict cr
          && (("module_item[completion_requirement][type]" == k)
              || ((match cr with
                   | some m => (Payload.lookup m "min_score").isSome
                   | none => false)
                  && ("module_item[completion_requirement][min_score]" == k)))) := by
  cases cr with
  | none => rfl
  | some m =>
    cases m with
    | nil => rfl
    | cons x xs =>
      cases hms : Payload.lookup (x :: xs) "min_score" <;>
        simp [completionRequirementEntries, pyTruthyDict, Payload.hasKey, hms]

theorem hasKey_contentBlock (b c k : String) :
    Payload.hasKey (if b = "ExternalUrl" then [] else [("module_item[content_id]", Value.str c)])
        k
      = (!(b == "ExternalUrl") && ("module_item[content_id]" == k)) := by
  by_cases hb : b = "ExternalUrl" <;> simp [hb, Payload.hasKey]

/-- Counterexample for C1: `create_course` guards `course_code` with a
Python truthiness test, so an explicitly supplied empty string (a
falsy-but-meaningful value) does NOT appear in the payload. -/
theorem claim_C1_counterexample :
    (create_course_data "Course" (some "") none).hasKey "course[course_code]" = false := by
  rfl

/-- Amended C1: an optional parameter left unspecified never appears as a
key in the payload; an optional parameter explicitly set to a
falsy-but-meaningful value appears for every parameter guarded by an
`is not None` check, but the truthiness-guarded parameters (`course_code`
and `sis_course_id` of `create_course`, `sis_section_id` of
`create_section`, `section_name` of `update_section`, `search_term` of
`list_pages`, `prerequisite_module_ids` of `create_module`, and the
completion-requirement mapping of the module-item operations) are dropped
when explicitly set to a falsy value.  Each conjunct characterizes key
presence exactly. -/
theorem claim_C1_optional_params_amended
    (a b c : String) (os1 os2 os3 : Option String) (oi1 oi2 : Option Int)
    (ob1 ob2 : Option Bool) (ol : Option (List String))
    (ocr : Option (List (String × Value))) :
    (create_course_data a os1 os2).hasKey "course[course_code]" = pyTruthyStr os1
    ∧ (create_course_data a os1 os2).hasKey "course[sis_course_id]" = pyTruthyStr os2
    ∧ (create_section_data a os1).hasKey "course_section[sis_section_id]" = pyTruthyStr os1
    ∧ (update_section_data os1).hasKey "course_section[name]" = pyTruthyStr os1
    ∧ (create_module_data a oi1 os1 ob1 ol ob2).hasKey "module[position]" = oi1.isSome
    ∧ (create_module_data a oi1 os1 ob1 ol ob2).hasKey "module[unlock_at]" = os1.isSome
    ∧ (create_module_data a oi1 os1 ob1 ol ob2).hasKey "module[require_sequential_progress]"
        = ob1.isSome
    ∧ (create_module_data a oi1 os1 ob1 ol ob2).hasKey "module[prerequisite_module_ids][0]"
        = pyTruthyList ol
    ∧ (create_module_data a oi1 os1 ob1 ol ob2).hasKey "module[publish_final_grade]"
        = ob2.isSome
    ∧ (update_module_data os1 oi1 os2 ob1 ol ob2).hasKey "module[name]" = os1.isSome
    ∧ (update_module_data os1 oi1 os2 ob1 ol ob2).hasKey "module[position]" = oi1.isSome
    ∧ (update_module_data os1 oi1 os2 ob1 ol ob2).hasKey "module[unlock_at]" = os2.isSome
    ∧ (update_module_data os1 oi1 os2 ob1 ol ob2).hasKey "module[require_sequential_progress]"
        = ob1.isSome
    ∧ ((update_module_data os1 oi1 os2 ob1 ol ob2).hasKey "module[prerequisite_module_ids][0]"
        || (update_module_data os1 oi1 os2 ob1 ol ob2).hasKey "module[prerequisite_module_ids][]")
        = ol.isSome
    ∧ (update_module_data os1 oi1 os2 ob1 ol ob2).hasKey "module[publish_final_grade]"
        = ob2.isSome
    ∧ (create_module_item_data a b c oi1 oi2 os1 os2 ob1 ocr).hasKey "module_item[position]"
        = oi1.isSome
    ∧ (create_module_item_data a b c oi1 oi2 os1 os2 ob1 ocr).hasKey "module_item[indent]"
        = oi2.isSome
    ∧ (create_module_item_data a b c oi1 oi2 os1 os2 ob1 ocr).hasKey "module_item[page_url]"
        = (os1.isSome && (b == "Page"))
    ∧ (create_module_item_data a b c oi1 oi2 os1 os2 ob1 ocr).hasKey "module_item[external_url]"
        = (os2.isSome && (b == "ExternalUrl"))
    ∧ (create_module_item_data a b c oi1 oi2 os1 os2 ob1 ocr).hasKey "module_item[new_tab]"
        = ob1.isSome
    ∧ (create_module_item_data a b c oi1 oi2 os1 os2 ob1 ocr).hasKey
        "module_item[completion_requirement][type]" = pyTruthyDict ocr
    ∧ (update_module_item_data os1 oi1 oi2 os2 ob1 ocr).hasKey "module_item[title]"
        = os1.isSome
    ∧ (update_module_item_data os1 oi1 oi2 os2 ob1 ocr).hasKey "module_item[position]"
        = oi1.isSome
    ∧ (update_module_item_data os1 oi1 oi2 os2 ob1 ocr).hasKey "module_item[indent]"
        = oi2.isSome
    ∧ (update_module_item_data os1 oi1 oi2 os2 ob1 ocr).hasKey "module_item[external_url]"
        = os2.isSome
    ∧ (update_module_item_data os1 oi1 oi2 os2 ob1 ocr).hasKey "module_item[new_tab]"
        = ob1.isSome
    ∧ (update_module_item_data os1 oi1 oi2 os2 ob1 ocr).hasKey
        "module_item[completion_requirement][type]" = pyTruthyDict ocr
    ∧ (create_page_data a b os1 ob1 ob2).hasKey "wiki_page[editing_roles]" = os1.isSome
    ∧ (create_page_data a b os1 ob1 ob2).hasKey "wiki_page[published]" = ob1.isSome
    ∧ (create_page_data a b os1 ob1 ob2).hasKey "wiki_page[front_page]" = ob2.isSome
    ∧ (update_page_data os1 os2 os3 ob1 ob2).hasKey "wiki_page[title]" = os1.isSome
    ∧ (update_page_data os1 os2 os3 ob1 ob2).hasKey "wiki_page[body]" = os2.isSome
    ∧ (update_page_data os1 os2 os3 ob1 ob2).hasKey "wiki_page[editing_roles]" = os3.isSome
    ∧ (update_page_data os1 os2 os3 ob1 ob2).hasKey "wiki_page[published]" = ob1.isSome
    ∧ (update_page_data os1 os2 os3 ob1 ob2).hasKey "wiki_page[front_page]" = ob2.isSome
    ∧ (list_pages_params os1).hasKey "search_term" = pyTruthyStr os1 := by
  have hc0 : (create_module_data a oi1 os1 ob1 ol ob2).hasKey "module[prerequisite_module_ids][0]"
      = (prereqEntriesCreate ol).hasKey "module[prerequisite_module_ids][0]" := by
    simp [create_module_data, hasKey_append, hasKey_cons, hasKey_single, hasKey_optEntry,
      hasKey_nil]
  have hu0 : (update_module_data os1 oi1 os2 ob1 ol ob2).hasKey
        "module[prerequisite_module_ids][0]"
      = (prereqEntriesUpdate ol).hasKey "module[prerequisite_module_ids][0]" := by
    simp [update_module_data, hasKey_append, hasKey_optEntry, hasKey_nil]
  have hus : (update_module_data os1 oi1 os2 ob1 ol ob2).hasKey
        "module[prerequisite_module_ids][]"
      = (prereqEntriesUpdate ol).hasKey "module[prerequisite_module_ids][]" := by
    simp [update_module_data, hasKey_append, hasKey_optEntry, hasKey_nil]
  refine ⟨?_, ?_, ?_, ?_, ?_, ?_, ?_, ?_, ?_, ?_, ?_, ?_, ?_, ?_, ?_, ?_, ?_, ?_, ?_, ?_, ?_,
    ?_, ?_, ?_, ?_, ?_, ?_, ?_, ?_, ?_, ?_, ?_, ?_, ?_, ?_, ?_⟩ <;>
    first
    | (rw [hc0, hasKey_prereqCreate_zero])
    | (rw [hu0, hus, hasKey_prereqUpdate_some])
    | simp [create_course_data, create_section_data, update_section_data, create_module_data,
        update_module_data, create_module_item_data, update_module_item_data, create_page_data,
        update_page_data, list_pages_params, hasKey_append, hasKey_cons, hasKey_single,
        hasKey_optEntry, hasKey_truthyEntry, hasKey_nil, hasKey_pageUrlEntry,
        hasKey_externalUrlEntry, hasKey_crEntries, hasKey_contentBlock,
        hasKey_prereqCreate_not_pre "module[position]" ol (by decide),
        hasKey_prereqCreate_not_pre "module[unlock_at]" ol (by decide),
        hasKey_prereqCreate_not_pre "module[require_sequential_progress]" ol (by decide),
        hasKey_prereqCreate_not_pre "module[publish_final_grade]" ol (by decide),
        hasKey_prereqUpdate_not_pre "module[name]" ol (by decide) (by decide),
        hasKey_prereqUpdate_not_pre "module[position]" ol (by decide) (by decide),
        hasKey_prereqUpdate_not_pre "module[unlock_at]" ol (by decide) (by decide),
        hasKey_prereqUpdate_not_pre "module[require_sequential_progress]" ol (by decide)
          (by decide),
        hasKey_prereqUpdate_not_pre "module[publish_final_grade]" ol (by decide) (by decide)]

theorem keysWithPre_nil (pre : String) : keysWithPre pre [] = [] := rfl

theorem prereqKeys_prereqCreate_some (l : List String) :
    prereqKeys (prereqEntriesCreate (some l))
      = if l.isEmpty then []
        else (List.range l.length).map (idxKey "module[prerequisite_module_ids]") := by
  cases l with
  | nil => rfl
  | cons x xs =>
    simp [prereqEntriesCreate, prereqKeys, prereqField, keysWithPre_enumIndexed]

theorem prereqKeys_prereqUpdate_some (l : List String) :
    prereqKeys (prereqEntriesUpdate (some l))
      = if l.isEmpty then ["module[prerequisite_module_ids][]"]
        else (List.range l.length).map (idxKey "module[prerequisite_module_ids]") := by
  cases l with
  | nil =>
    simp [prereqEntriesUpdate, prereqKeys, prereqField,
      keysWithPre_single_in "module[prerequisite_module_ids]"
        "module[prerequisite_module_ids][]" (Value.str "") (by decide)]
  | cons x xs =>
    simp [prereqEntriesUpdate, prereqKeys, prereqField, keysWithPre_enumIndexed]

theorem hasKey_prereqCreate_bare (ol : Option (List String)) :
    (prereqEntriesCreate ol).hasKey "module[prerequisite_module_ids]" = false := by
  cases ol with
  | none => rfl
  | some l =>
    cases l with
    | nil => rfl
    | cons x xs =>
      simpa [prereqEntriesCreate] using
        hasKey_enumIndexed_bare "module[prerequisite_module_ids]" (x :: xs)

theorem hasKey_prereqUpdate_bare (ol : Option (List String)) :
    (prereqEntriesUpdate ol).hasKey "module[prerequisite_module_ids]" = false := by
  cases ol with
  | none => rfl
  | some l =>
    cases l with
    | nil => simp [prereqEntriesUpdate, Payload.hasKey]
    | cons x xs =>
      simpa [prereqEntriesUpdate] using
        hasKey_enumIndexed_bare "module[prerequisite_module_ids]" (x :: xs)

/-- Counterexample for C6: in `create_module`, an explicitly supplied empty
prerequisite list does NOT emit the `field[]` sentinel — the truthiness
guard skips the block entirely. -/
theorem claim_C6_counterexample :
    (create_module_data "Module" none none none (some []) none).hasKey
      "module[prerequisite_module_ids][]" = false := by
  rfl

/-- Amended C6: a list of `n` elements expands to exactly the indexed keys
`field[0]` … `field[n-1]` (in order) and no bare `field` key, in both
`create_module` and `update_module`; an explicitly supplied empty list
emits the `field[]` sentinel mapped to the empty string in `update_module`
only — in `create_module` it is skipped like an unspecified parameter. -/
theorem claim_C6_list_expansion_amended
    (name : String) (uname : Option String) (oi : Option Int) (os : Option String)
    (ob1 ob2 : Option Bool) (l : List String) :
    prereqKeys (create_module_data name oi os ob1 (some l) ob2)
      = (if l.isEmpty then []
         else (List.range l.length).map (idxKey "module[prerequisite_module_ids]"))
    ∧ prereqKeys (update_module_data uname oi os ob1 (some l) ob2)
      = (if l.isEmpty then ["module[prerequisite_module_ids][]"]
         else (List.range l.length).map (idxKey "module[prerequisite_module_ids]"))
    ∧ (create_module_data name oi os ob1 (some l) ob2).hasKey
        "module[prerequisite_module_ids]" = false
    ∧ (update_module_data uname oi os ob1 (some l) ob2).hasKey
        "module[prerequisite_module_ids]" = false
    ∧ Payload.lookup (update_module_data uname oi os ob1 (some []) ob2)
        "module[prerequisite_module_ids][]" = some (Value.str "")
    ∧ prereqKeys (create_module_data name oi os ob1 none ob2) = []
    ∧ prereqKeys (update_module_data uname oi os ob1 none ob2) = [] := by
  have hcreate : ∀ ol : Option (List String),
      prereqKeys (create_module_data name oi os ob1 ol ob2)
        = prereqKeys (prereqEntriesCreate ol) := by
    intro ol
    simp only [create_module_data, prereqKeys, prereqField, keysWithPre_append, keysWithPre_nil,
      keysWithPre_single_out "module[prerequisite_module_ids]" "module[name]"
        (Value.str name) (by decide),
      keysWithPre_optEntry "module[prerequisite_module_ids]" "module[position]"
        (oi.map Value.int) (by decide),
      keysWithPre_optEntry "module[prerequisite_module_ids]" "module[unlock_at]"
        (os.map Value.str) (by decide),
      keysWithPre_optEntry "module[prerequisite_module_ids]"
        "module[require_sequential_progress]" (ob1.map Value.bool) (by decide),
      keysWithPre_optEntry "module[prerequisite_module_ids]" "module[publish_final_grade]"
        (ob2.map Value.bool) (by decide)]
    simp
  have hupdate : ∀ ol : Option (List String),
      prereqKeys (update_module_data uname oi os ob1 ol ob2)
        = prereqKeys (prereqEntriesUpdate ol) := by
    intro ol
    simp only [update_module_data, prereqKeys, prereqField, keysWithPre_append, keysWithPre_nil,
      keysWithPre_optEntry "module[prerequisite_module_ids]" "module[name]"
        (uname.map Value.str) (by decide),
      keysWithPre_optEntry "module[prerequisite_module_ids]" "module[position]"
        (oi.map Value.int) (by decide),
      keysWithPre_optEntry "module[prerequisite_module_ids]" "module[unlock_at]"
        (os.map Value.str) (by decide),
      keysWithPre_optEntry "module[prerequisite_module_ids]"
        "module[require_sequential_progress]" (ob1.map Value.bool) (by decide),
      keysWithPre_optEntry "module[prerequisite_module_ids]" "module[publish_final_grade]"
        (ob2.map Value.bool) (by decide)]
    simp
  refine ⟨?_, ?_, ?_, ?_, ?_, ?_, ?_⟩
  · rw [hcreate, prereqKeys_prereqCreate_some]
  · rw [hupdate, prereqKeys_prereqUpdate_some]
  · simp [create_module_data, hasKey_append, hasKey_cons, hasKey_single, hasKey_optEntry,
      hasKey_nil, hasKey_prereqCreate_bare]
  · simp [update_module_data, hasKey_append, hasKey_optEntry, hasKey_nil,
      hasKey_prereqUpdate_bare]
  · simp [update_module_data, prereqEntriesUpdate, lookup_append,
      lookup_optEntry_ne "module[name]" "module[prerequisite_module_ids][]"
        (uname.map Value.str) (by decide),
      lookup_optEntry_ne "module[position]" "module[prerequisite_module_ids][]"
        (oi.map Value.int) (by decide),
      lookup_optEntry_ne "module[unlock_at]" "module[prerequisite_module_ids][]"
        (os.map Value.str) (by decide),
      lookup_optEntry_ne "module[require_sequential_progress]"
        "module[prerequisite_module_ids][]" (ob1.map Value.bool) (by decide),
      lookup_single_self "module[prerequisite_module_ids][]" (Value.str ""),
      lookup_cons_self "module[prerequisite_module_ids][]" (Value.str "")]
  · rw [hcreate]
    rfl
  · rw [hupdate]
    rfl

theorem cmi_lookup_content_id (title type content_id : String) (pos ind : Option Int)
    (pu eu : Option String) (nt : Option Bool) (cr : Option (List (String × Value)))
    (h : ¬ type = "ExternalUrl") :
    (create_module_item_data title type content_id pos ind pu eu nt cr).lookup
      "module_item[content_id]" = some (Value.str content_id) := by
  simp [create_module_item_data, lookup_append, Payload.lookup, List.find?, h]

theorem cmi_lookup_type (title type content_id : String) (pos ind : Option Int)
    (pu eu : Option String) (nt : Option Bool) (cr : Option (List (String × Value))) :
    (create_module_item_data title type content_id pos ind pu eu nt cr).lookup
      "module_item[type]" = some (Value.str type) := by
  simp [create_module_item_data, lookup_append, Payload.lookup, List.find?]

theorem cmi_lookup_page_url_Page (title content_id : String) (pos ind : Option Int)
    (u : String) (nt : Option Bool) :
    (create_module_item_data title "Page" content_id pos ind (some u) none nt none).lookup
      "module_item[page_url]" = some (Value.str u) := by
  cases pos <;> cases ind <;> cases nt <;>
    simp [create_module_item_data, lookup_append, Payload.lookup, List.find?, optEntry,
      pageUrlEntry, externalUrlEntry, completionRequirementEntries]

/-- Claim C10: the tool-level `create_module_item` accepts an omitted (or
empty) content identifier without local rejection: with the item type not
`ExternalUrl`, the payload still contains `module_item[content_id]` mapped
to the empty string, and the request is sent to the remote API (exactly one
wire request is issued). -/
theorem claim_C10_empty_content_id_sent
    (c : CanvasClient) (remote : Remote) (course_id module_id title type : String)
    (content_id : Option String) (position indent : Option Int)
    (page_url external_url : Option String) (new_tab : Option Bool)
    (crt : Option String) (ms : Option Rat)
    (h1 : content_id = none ∨ content_id = some "") (h2 : ¬ type = "ExternalUrl") :
    (server_create_module_item c remote course_id module_id title type content_id position
        indent page_url external_url new_tab crt ms).1.length = 1
    ∧ (create_module_item_data title type (pyOrStr content_id "") position indent page_url
        external_url new_tab (serverCompletionRequirement crt ms)).lookup
        "module_item[content_id]" = some (Value.str "") := by
  constructor
  · simp [server_create_module_item, CanvasClient.create_module_item, request_POST]
  · have he : pyOrStr content_id "" = "" := by
      rcases h1 with h | h <;> simp [h, pyOrStr]
    rw [he]
    exact cmi_lookup_content_id title type "" position indent page_url external_url new_tab
      (serverCompletionRequirement crt ms) h2

/-- Witness for C10: content identifier omitted, item type `Page`. -/
theorem claim_C10_witness :
    (server_create_module_item (CanvasClient.init "https://canvas.example.com/api/v1" "token")
        demoRemote "1" "2" "Intro" "Page" none none none none none none none none).1.length = 1
    ∧ (create_module_item_data "Intro" "Page" (pyOrStr none "") none none none none none
        (serverCompletionRequirement none none)).lookup "module_item[content_id]"
        = some (Value.str "") :=
  claim_C10_empty_content_id_sent _ demoRemote "1" "2" "Intro" "Page" none none none none
    none none none none (Or.inl rfl) (by decide)

/-- Counterexample for C3: with every remote call succeeding, the composite
`create_page_and_add_to_module` issues three network requests (page
creation, page fetch, module-item creation), not two. -/
theorem claim_C3_counterexample :
    (server_create_page_and_add_to_module
        (CanvasClient.init "https://canvas.example.com/api/v1" "token") demoRemote "1" "2"
        "Intro" "<p>hi</p>" none (some true) none none none none).1.length = 3 := by
  rfl

/-- Amended C3: the composite first creates the page, derives the module
item's page slug as the trailing path segment of the created page's
returned URL, then delegates to `add_page_to_module`, which first fetches
the page by that slug and then performs the module-item creation of type
`Page` with `module_item[page_url]` mapped to the slug; the whole composite
issues exactly three network requests when every step succeeds, and when
the page fetch fails after the page was created there is no rollback — the
trace stops at the two requests already issued and the failure is
surfaced unchanged. -/
theorem claim_C3_composite_amended
    (c : CanvasClient) (remote : Remote) (course_id module_id title body : String)
    (editing_roles : Option String) (published front_page : Option Bool)
    (pos ind : Option Int) (nt : Option Bool) (pageFields : List (String × Json)) (u : String)
    (h1 : remote ⟨"POST", requestUrl c ("courses/" ++ course_id ++ "/pages"), none,
        some (create_page_data title body editing_roles published front_page)⟩
      = TransportResult.success (Json.obj pageFields))
    (h2 : jsonLookup pageFields "url" = some (Json.str u)) :
    (∀ page2 : Json,
      remote ⟨"GET", requestUrl c ("courses/" ++ course_id ++ "/pages/" ++ lastSegment u),
          none, none⟩ = TransportResult.success page2 →
      (server_create_page_and_add_to_module c remote course_id module_id title body
          editing_roles published front_page pos ind nt).1
        = [⟨"POST", requestUrl c ("courses/" ++ course_id ++ "/pages"), none,
            some (create_page_data title body editing_roles published front_page)⟩,
           ⟨"GET", requestUrl c ("courses/" ++ course_id ++ "/pages/" ++ lastSegment u),
            none, none⟩,
           ⟨"POST",
            requestUrl c ("courses/" ++ course_id ++ "/modules/" ++ module_id ++ "/items"),
            none,
            some (create_module_item_data
              (pyOrStr (some title) (jStrD (pyGetD page2 "title" (Json.str ""))))
              "Page" (pyStrOf (pyGetD page2 "id" (Json.str "")))
              pos ind (some (lastSegment u)) none nt none)⟩]
      ∧ (create_module_item_data
            (pyOrStr (some title) (jStrD (pyGetD page2 "title" (Json.str ""))))
            "Page" (pyStrOf (pyGetD page2 "id" (Json.str "")))
            pos ind (some (lastSegment u)) none nt none).lookup "module_item[page_url]"
          = some (Value.str (lastSegment u))
      ∧ (create_module_item_data
            (pyOrStr (some title) (jStrD (pyGetD page2 "title" (Json.str ""))))
            "Page" (pyStrOf (pyGetD page2 "id" (Json.str "")))
            pos ind (some (lastSegment u)) none nt none).lookup "module_item[type]"
          = some (Value.str "Page"))
    ∧ (∀ f : TransportFailure,
      remote ⟨"GET", requestUrl c ("courses/" ++ course_id ++ "/pages/" ++ lastSegment u),
          none, none⟩ = TransportResult.failure f →
      (server_create_page_and_add_to_module c remote course_id module_id title body
          editing_roles published front_page pos ind nt).1
        = [⟨"POST", requestUrl c ("courses/" ++ course_id ++ "/pages"), none,
            some (create_page_data title body editing_roles published front_page)⟩,
           ⟨"GET", requestUrl c ("courses/" ++ course_id ++ "/pages/" ++ lastSegment u),
            none, none⟩]
      ∧ (server_create_page_and_add_to_module c remote course_id module_id title body
          editing_roles published front_page pos ind nt).2
        = Except.error (ReqError.api (canvasAPIErrorOf f.excMsg f.response))) := by
  have hslug : pageSlugOf (Json.obj pageFields) = lastSegment u := by
    simp [pageSlugOf, pyGetD, h2, jStrD]
  constructor
  · intro page2 h3
    simp only [server_create_page_and_add_to_module, CanvasClient.create_page, request_POST,
      transportOutcome, h1, Except.mapError, hslug, CanvasClient.add_page_to_module,
      CanvasClient.get_page, request_GET, h3, CanvasClient.create_module_item]
    refine ⟨rfl, ?_, ?_⟩
    · exact cmi_lookup_page_url_Page _ _ pos ind (lastSegment u) nt
    · exact cmi_lookup_type _ _ _ pos ind _ none nt none
  · intro f h3
    simp only [server_create_page_and_add_to_module, CanvasClient.create_page, request_POST,
      transportOutcome, h1, Except.mapError, hslug, CanvasClient.add_page_to_module,
      CanvasClient.get_page, request_GET, h3]
    exact ⟨rfl, trivial⟩

/-- Witness for C3 (amended): with the demo oracle, the module-item payload
issued by the composite carries the page slug `intro` derived from the
created page's URL. -/
theorem claim_C3_witness :
    (create_module_item_data
        (pyOrStr (some "Intro")
          (jStrD (pyGetD (Json.obj
            [("url", Json.str "https://canvas.example.com/courses/1/pages/intro"),
             ("title", Json.str "Intro"), ("id", Json.int 42)]) "title" (Json.str ""))))
        "Page"
        (pyStrOf (pyGetD (Json.obj
          [("url", Json.str "https://canvas.example.com/courses/1/pages/intro"),
           ("title", Json.str "Intro"), ("id", Json.int 42)]) "id" (Json.str "")))
        none none (some (lastSegment "https://canvas.example.com/courses/1/pages/intro")) none
        none none).lookup "module_item[page_url]"
      = some (Value.str (lastSegment "https://canvas.example.com/courses/1/pages/intro")) :=
  ((claim_C3_composite_amended
      (CanvasClient.init "https://canvas.example.com/api/v1" "token") demoRemote "1" "2"
      "Intro" "<p>hi</p>" none (some true) none none none none
      [("url", Json.str "https://canvas.example.com/courses/1/pages/intro"),
       ("title", Json.str "Intro"), ("id", Json.int 42)]
      "https://canvas.example.com/courses/1/pages/intro" rfl rfl).1
    (Json.obj
      [("url", Json.str "https://canvas.example.com/courses/1/pages/intro"),
       ("title", Json.str "Intro"), ("id", Json.int 42)]) rfl).2.1
